import Mathlib

/-!
Verification development for the OANDA autotrader safety core.

This file gives a shallow embedding, in Lean 4, of the three safety
subsystems of the repository:

* `trade_latency_gate.py` — the execution latency gate (hysteresis state
  machine) and the threshold calibrator `suggest_thresholds`;
* `stream_metrics.py` — the stream health tracker (`StreamMetrics`);
* `retrain_gate.py` — the retraining gate (`evaluate_retrain_gate` and
  its helpers).

Python floats are embedded as `ℚ`; Python ints as `ℕ` (counters, sizes)
or `ℤ` (window parameters that flow into Python slice expressions);
Python `None` as `Option`.  Python's `round` (round-half-to-even) is
embedded as `pyRound`.  Stateful methods become pure functions from the
old state (plus the call's arguments) to the new state.
-/

/-- Python `round` on a rational: round half to even (banker's rounding). -/
def pyRound (q : ℚ) : ℤ :=
  let f : ℤ := ⌊q⌋
  let frac : ℚ := q - f
  if frac < 1/2 then f
  else if 1/2 < frac then f + 1
  else if 2 ∣ f then f else f + 1

/-- Ascending sort of a list of rationals (Python `sorted` / `list.sort`). -/
def sortQ (l : List ℚ) : List ℚ :=
  List.insertionSort (fun a b => a ≤ b) l

/-- Python `statistics.median`: middle element of the ascending sort for an
odd length, average of the two middle elements for an even length.
Only used on non-empty lists (the callers guard emptiness). -/
def listMedian (l : List ℚ) : ℚ :=
  let s := sortQ l
  let n := s.length
  if n % 2 = 1 then s.getD (n / 2) 0
  else (s.getD (n / 2 - 1) 0 + s.getD (n / 2) 0) / 2

/-- Python slice `l[-limit:]` for an integer `limit`: for `limit > 0` the last
`limit` elements, for `limit = 0` the whole list (`l[-0:] = l[0:]`), for
`limit < 0` it is `l[(-limit):]`, dropping the first `-limit` elements. -/
def pySliceLast (l : List α) (limit : ℤ) : List α :=
  if limit ≤ 0 then l.drop (-limit).toNat
  else l.drop (l.length - limit.toNat)

/-- Nearest-rank p95 index used throughout the sources:
`max(0, int(round(0.95 * (n - 1))))`. -/
def p95Index (n : ℕ) : ℕ :=
  (max 0 (pyRound (95/100 * ((n : ℚ) - 1)))).toNat

/-- Nearest-rank p99 index used by `suggest_thresholds`:
`max(0, int(round(0.99 * (n - 1))))`. -/
def p99Index (n : ℕ) : ℕ :=
  (max 0 (pyRound (99/100 * ((n : ℚ) - 1)))).toNat

/-! ## Execution latency gate (`trade_latency_gate.py`) -/

/-- `TradeLatencyGateConfig` (trade_latency_gate.py lines 18-39), minus the
`mode`/`instrument` identity strings, which no gate logic reads. -/
structure TradeLatencyGateConfig where
  skew_outlier_ms : ℚ := 1000
  backlog_warn_ms : ℚ := 1500
  backlog_block_ms : ℚ := 500
  consecutive_backlog_to_block : ℕ := 3
  consecutive_good_to_unblock : ℕ := 10
  outlier_high_ms : ℚ := 10000
  min_samples : ℕ := 60
  block_ms_min : ℚ := 250
  block_ms_max : ℚ := 750
  warn_ms_min : ℚ := 800
  warn_ms_max : ℚ := 2500
  effective_window_size : ℕ := 120
  warn_p95_hyst_on_ms : ℚ := 25
  warn_p95_hyst_off_ms : ℚ := 50
  consecutive_p95_to_warn : ℕ := 2
  consecutive_p95_to_clear : ℕ := 3
  deriving DecidableEq, Repr

/-- `TradeLatencyGateConfig.clamp` (lines 41-47): clamp the block and warn
thresholds into their `[min, max]` safe bands. -/
def clampConfig (cfg : TradeLatencyGateConfig) : TradeLatencyGateConfig :=
  { cfg with
    backlog_block_ms := min (max cfg.backlog_block_ms cfg.block_ms_min) cfg.block_ms_max
    backlog_warn_ms := min (max cfg.backlog_warn_ms cfg.warn_ms_min) cfg.warn_ms_max }

/-- `TradeLatencyGateState` (trade_latency_gate.py lines 49-70). -/
structure TradeLatencyGateState where
  blocked : Bool := true
  total_samples : ℕ := 0
  backlog_samples : ℕ := 0
  outlier_samples : ℕ := 0
  skew_samples : ℕ := 0
  consecutive_backlog : ℕ := 0
  consecutive_good : ℕ := 0
  last_raw_ms : Option ℚ := none
  last_effective_ms : Option ℚ := none
  last_backlog : Option Bool := none
  last_outlier : Option Bool := none
  last_skew_ms : Option ℚ := none
  last_effective_p95_ms : Option ℚ := none
  last_effective_mean_ms : Option ℚ := none
  warn_p95_on_ms : Option ℚ := none
  warn_p95_off_ms : Option ℚ := none
  p95_warn_streak : ℕ := 0
  p95_clear_streak : ℕ := 0
  warn_p95_latched : Bool := false
  deriving DecidableEq, Repr

/-- A `TradeLatencyGate` object: clamped config, mutable state, and the
private `_effective_samples` list. -/
structure TradeLatencyGate where
  config : TradeLatencyGateConfig
  state : TradeLatencyGateState
  effectiveSamples : List ℚ
  deriving DecidableEq, Repr

/-- `TradeLatencyGate.__init__` (lines 73-77): clamp the config and start
from the default state, which has `blocked = true`. -/
def initGate (cfg : TradeLatencyGateConfig) : TradeLatencyGate :=
  { config := clampConfig cfg, state := {}, effectiveSamples := [] }

/-- Arguments of one `TradeLatencyGate.update` call (lines 79-86). -/
structure GateUpdateIn where
  raw_ms : Option ℚ
  effective_ms : Option ℚ
  backlog : Bool
  outlier : Bool
  skew_ms : Option ℚ
  deriving DecidableEq, Repr

/-- `sample_ms = effective_ms if effective_ms is not None else raw_ms`
(line 92). -/
def sampleMs (inp : GateUpdateIn) : Option ℚ :=
  match inp.effective_ms with
  | some e => some e
  | none => inp.raw_ms

/-- Truncation of `_effective_samples` to the window (lines 107-109):
`if len(samples) > window: samples = samples[-window:]` — note that for a
window of 0 the Python slice `samples[-0:]` is the whole list. -/
def truncateWindow (l : List ℚ) (window : ℕ) : List ℚ :=
  if window < l.length then pySliceLast l (window : ℤ) else l

/-- `TradeLatencyGate.effective_stats` (lines 168-174): `(p95, mean)` over
the current effective-sample buffer, `(None, None)` when it is empty. -/
def effectiveStats (samples : List ℚ) : Option ℚ × Option ℚ :=
  if samples = [] then (none, none)
  else
    let values := sortQ samples
    let mean := values.sum / values.length
    (some (values.getD (p95Index values.length) 0), some mean)

/-- First paragraph of `update` (lines 94-106): increment `total_samples`,
record the last-sample fields, and bump the skew/backlog/outlier counters. -/
def stepRecord (st : TradeLatencyGateState) (inp : GateUpdateIn) :
    TradeLatencyGateState :=
  { st with
    total_samples := st.total_samples + 1
    last_raw_ms := inp.raw_ms
    last_effective_ms := inp.effective_ms
    last_backlog := some inp.backlog
    last_outlier := some inp.outlier
    last_skew_ms := inp.skew_ms
    skew_samples := st.skew_samples + (if inp.skew_ms.isSome then 1 else 0)
    backlog_samples := st.backlog_samples + (if inp.backlog then 1 else 0)
    outlier_samples := st.outlier_samples + (if inp.outlier then 1 else 0) }

/-- Percentile warn-streak phase (lines 118-128): when `total_samples` has
reached `min_samples` and a p95 exists, compare it against the on/off
thresholds; inside the band the streaks hold. -/
def p95StreakPhase (cfg : TradeLatencyGateConfig) (st : TradeLatencyGateState)
    (p95 : Option ℚ) (onT offT : ℚ) : TradeLatencyGateState :=
  if cfg.min_samples ≤ st.total_samples then
    match p95 with
    | some p =>
      if onT ≤ p then
        { st with
          p95_warn_streak := min (st.p95_warn_streak + 1) cfg.consecutive_p95_to_warn
          p95_clear_streak := 0 }
      else if p ≤ offT then
        { st with
          p95_clear_streak := min (st.p95_clear_streak + 1) cfg.consecutive_p95_to_clear
          p95_warn_streak := 0 }
      else st
    | none => st
  else st

/-- First latch transition (lines 129-131): engage the latch once the warn
streak reaches its threshold. -/
def latchOn (cfg : TradeLatencyGateConfig) (st : TradeLatencyGateState) :
    TradeLatencyGateState :=
  if st.warn_p95_latched = false ∧ cfg.consecutive_p95_to_warn ≤ st.p95_warn_streak
  then { st with warn_p95_latched := true, p95_warn_streak := 0 }
  else st

/-- Second latch transition (lines 132-134): release the latch once the
clear streak reaches its threshold. -/
def latchOff (cfg : TradeLatencyGateConfig) (st : TradeLatencyGateState) :
    TradeLatencyGateState :=
  if st.warn_p95_latched = true ∧ cfg.consecutive_p95_to_clear ≤ st.p95_clear_streak
  then { st with warn_p95_latched := false, p95_clear_streak := 0 }
  else st

/-- Percentile latch phase (lines 129-135): the two latch transitions in
source order. -/
def p95LatchPhase (cfg : TradeLatencyGateConfig) (st : TradeLatencyGateState) :
    TradeLatencyGateState :=
  latchOff cfg (latchOn cfg st)

/-- Stats bookkeeping of the percentile block (lines 110-117): record the
recomputed p95/mean and the two hysteresis thresholds on the state. -/
def stepStats (cfg : TradeLatencyGateConfig) (st : TradeLatencyGateState)
    (samples : List ℚ) (e : ℚ) : TradeLatencyGateState :=
  { st with
    last_effective_p95_ms :=
      (effectiveStats (truncateWindow (samples ++ [e]) cfg.effective_window_size)).1
    last_effective_mean_ms :=
      (effectiveStats (truncateWindow (samples ++ [e]) cfg.effective_window_size)).2
    warn_p95_on_ms := some (cfg.backlog_warn_ms + cfg.warn_p95_hyst_on_ms)
    warn_p95_off_ms := some (max 0 (cfg.backlog_warn_ms - cfg.warn_p95_hyst_off_ms)) }

/-- The whole percentile block of `update` (lines 107-135) for a sample with
`effective_ms = e` and `outlier = false`: push the sample, truncate the
window, recompute the stats, run the streak and latch phases.  Returns the
new state and the new `_effective_samples` buffer. -/
def stepPercentile (cfg : TradeLatencyGateConfig) (st : TradeLatencyGateState)
    (samples : List ℚ) (e : ℚ) : TradeLatencyGateState × List ℚ :=
  (p95LatchPhase cfg
    (p95StreakPhase cfg (stepStats cfg st samples e)
      (effectiveStats (truncateWindow (samples ++ [e]) cfg.effective_window_size)).1
      (cfg.backlog_warn_ms + cfg.warn_p95_hyst_on_ms)
      (max 0 (cfg.backlog_warn_ms - cfg.warn_p95_hyst_off_ms))),
   truncateWindow (samples ++ [e]) cfg.effective_window_size)

/-- Guard of the percentile block (line 107): it only runs when the sample
carries an effective latency and is not an outlier. -/
def applyPercentile (cfg : TradeLatencyGateConfig) (st : TradeLatencyGateState)
    (samples : List ℚ) (inp : GateUpdateIn) : TradeLatencyGateState × List ℚ :=
  match inp.effective_ms with
  | some e => if inp.outlier then (st, samples) else stepPercentile cfg st samples e
  | none => (st, samples)

/-- `backlog_hit` (line 138). -/
def backlogHit (cfg : TradeLatencyGateConfig) (inp : GateUpdateIn) : Bool :=
  inp.backlog || inp.outlier ||
    (match sampleMs inp with
     | some s => decide (cfg.backlog_block_ms ≤ s)
     | none => false)

/-- `good_hit` (line 139). -/
def goodHit (cfg : TradeLatencyGateConfig) (inp : GateUpdateIn) : Bool :=
  !inp.backlog && !inp.outlier &&
    (match sampleMs inp with
     | some s => decide (s < cfg.backlog_warn_ms)
     | none => false)

/-- Streak bookkeeping of `update` (lines 141-146): a bad hit bumps the
backlog streak and zeroes the good streak; a good hit does the inverse; a
sample in the ambiguous band leaves both streaks unchanged. -/
def stepStreaks (cfg : TradeLatencyGateConfig) (st : TradeLatencyGateState)
    (inp : GateUpdateIn) : TradeLatencyGateState :=
  if backlogHit cfg inp then
    { st with consecutive_backlog := st.consecutive_backlog + 1, consecutive_good := 0 }
  else if goodHit cfg inp then
    { st with consecutive_good := st.consecutive_good + 1, consecutive_backlog := 0 }
  else st

/-- Blocking logic of `update` (lines 148-154): blocked below `min_samples`
or on a full bad streak; unblocked only from a blocked state on a full good
streak. -/
def stepBlocked (cfg : TradeLatencyGateConfig) (st : TradeLatencyGateState) :
    TradeLatencyGateState :=
  if st.total_samples < cfg.min_samples then { st with blocked := true }
  else if cfg.consecutive_backlog_to_block ≤ st.consecutive_backlog then
    { st with blocked := true }
  else if st.blocked = true ∧ cfg.consecutive_good_to_unblock ≤ st.consecutive_good then
    { st with blocked := false }
  else st

/-- Hard block of `update` (lines 156-158): any backlog or outlier sample
forces `blocked = true`. -/
def stepHardBlock (st : TradeLatencyGateState) (inp : GateUpdateIn) :
    TradeLatencyGateState :=
  if inp.backlog || inp.outlier then { st with blocked := true } else st

/-- `TradeLatencyGate.update` (lines 79-160).  A call with both `raw_ms` and
`effective_ms` equal to `None` returns the current state untouched
(lines 87-88); otherwise the four phases run in source order. -/
def TradeLatencyGate.update (g : TradeLatencyGate) (inp : GateUpdateIn) :
    TradeLatencyGate :=
  if inp.raw_ms = none ∧ inp.effective_ms = none then g
  else
    { g with
      state :=
        stepHardBlock
          (stepBlocked g.config
            (stepStreaks g.config
              (applyPercentile g.config (stepRecord g.state inp) g.effectiveSamples inp).1
              inp))
          inp
      effectiveSamples :=
        (applyPercentile g.config (stepRecord g.state inp) g.effectiveSamples inp).2 }

/-- A sequence of `update` calls, oldest first. -/
def runUpdates (g : TradeLatencyGate) (l : List GateUpdateIn) : TradeLatencyGate :=
  l.foldl TradeLatencyGate.update g

/-- The effective p95 that one `update` call recomputes (`effective_stats`
after the push on lines 107-112), or `none` when the percentile block is
skipped for this sample. -/
def stepP95 (g : TradeLatencyGate) (inp : GateUpdateIn) : Option ℚ :=
  match inp.effective_ms with
  | some e =>
    if inp.outlier then none
    else (effectiveStats
      (truncateWindow (g.effectiveSamples ++ [e]) g.config.effective_window_size)).1
  | none => none

/-- The recomputed effective p95 of every step of the sample sequence stays
strictly between the off threshold `max(0, backlog_warn_ms -
warn_p95_hyst_off_ms)` and the on threshold `backlog_warn_ms +
warn_p95_hyst_on_ms`. -/
def inBandSeq (g : TradeLatencyGate) : List GateUpdateIn → Prop
  | [] => True
  | inp :: rest =>
    (∀ p : ℚ, stepP95 g inp = some p →
      max 0 (g.config.backlog_warn_ms - g.config.warn_p95_hyst_off_ms) < p ∧
      p < g.config.backlog_warn_ms + g.config.warn_p95_hyst_on_ms) ∧
    inBandSeq (g.update inp) rest

/-- Structural invariant of the percentile-latch machinery: at most one of
the two streaks is running, and a streak that has reached its threshold has
already been consumed by the latch transition of the same `update`. -/
def p95Inv (cfg : TradeLatencyGateConfig) (st : TradeLatencyGateState) : Prop :=
  (st.p95_warn_streak = 0 ∨ st.p95_clear_streak = 0) ∧
  (st.warn_p95_latched = false → st.p95_warn_streak < cfg.consecutive_p95_to_warn) ∧
  (st.warn_p95_latched = true → st.p95_clear_streak < cfg.consecutive_p95_to_clear)

/-- `suggest_thresholds` (trade_latency_gate.py lines 196-212), for a list of
present (non-`None`) raw values: clamp negative values to 0, sort, take the
nearest-rank p95/p99, clamp each into its band; an empty population falls
back to the band floors. -/
def suggestThresholds (raw_ms_values : List ℚ)
    (warn_min warn_max block_min block_max : ℚ) : ℚ × ℚ :=
  let values := raw_ms_values.map (fun v => max v 0)
  if values = [] then (warn_min, block_min)
  else
    let values := sortQ values
    let warn := min (max (values.getD (p95Index values.length) 0) warn_min) warn_max
    let block := min (max (values.getD (p99Index values.length) 0) block_min) block_max
    (warn, block)

/-- Statement of the spec's calibration rule, written from the spec's words:
`warn = clamp(nearest-rank p95, warn_min, warn_max)` and
`block = clamp(nearest-rank p99, block_min, block_max)`, the percentile
index being `round(q * (n - 1))` over the ascending sort of the values. -/
def suggestThresholdsSpec (raw_ms_values : List ℚ)
    (warn_min warn_max block_min block_max : ℚ) : ℚ × ℚ :=
  if raw_ms_values = [] then (warn_min, block_min)
  else
    let values := sortQ raw_ms_values
    let warn := min (max (values.getD (p95Index values.length) 0) warn_min) warn_max
    let block := min (max (values.getD (p99Index values.length) 0) block_min) block_max
    (warn, block)

/-! ## Stream health tracker (`stream_metrics.py`) -/

/-- `StreamLatencySample` (stream_metrics.py lines 40-53). -/
structure StreamLatencySample where
  raw_ms : ℚ
  milliseconds : ℚ
  effective_ms : ℚ
  clock_offset_ms : ℚ
  backlog : Bool
  skew_ms : Option ℚ
  outlier : Bool
  timestamp : ℚ
  deriving DecidableEq, Repr

/-- `StreamMetricsSnapshot` (stream_metrics.py lines 18-37). -/
structure StreamMetricsSnapshot where
  messages_total : ℕ
  messages_per_sec : ℚ
  reconnect_waits : ℕ
  errors : ℕ
  last_error : Option String
  last_message_ts : Option ℚ
  last_success_ts : Option ℚ
  last_error_ts : Option ℚ
  last_reconnect_ts : Option ℚ
  latency_last_ms : Option ℚ
  latency_p95_ms : Option ℚ
  latency_mean_ms : Option ℚ
  latency_clamped_last_ms : Option ℚ
  latency_clamped_p95_ms : Option ℚ
  latency_clamped_mean_ms : Option ℚ
  latency_effective_last_ms : Option ℚ
  latency_effective_p95_ms : Option ℚ
  latency_effective_mean_ms : Option ℚ
  deriving DecidableEq, Repr

/-- The mutable fields of a `StreamMetrics` object (lines 56-81). -/
structure StreamMetricsM where
  window_seconds : ℕ := 10
  message_ts : List ℚ := []
  latency_samples : List StreamLatencySample := []
  neg_skew_samples : List ℚ := []
  messages_total : ℕ := 0
  reconnect_waits : ℕ := 0
  errors : ℕ := 0
  last_error : Option String := none
  last_message_ts : Option ℚ := none
  last_success_ts : Option ℚ := none
  last_error_ts : Option ℚ := none
  last_reconnect_ts : Option ℚ := none
  last_latency_ms : Option ℚ := none
  last_latency_raw_ms : Option ℚ := none
  last_skew_ms : Option ℚ := none
  last_backlog : Option Bool := none
  last_reconnect_reason : Option String := none
  last_effective_ms : Option ℚ := none
  clock_offset_ms : ℚ := 0
  last_outlier : Option Bool := none
  deriving DecidableEq, Repr

/-- Drop elements from the front of a list until its length is at most
`cap` (the `while ... popleft()` loop on the skew deque, line 112). -/
def dropExcessFront (l : List ℚ) (cap : ℕ) : List ℚ :=
  if cap < l.length then l.drop (l.length - cap) else l

/-- `StreamMetrics._trim` (lines 106-112): evict message timestamps and
latency samples older than the window from the front, and cap the
negative-skew history at `max(window_seconds * 10, 10)` entries. -/
def trimMetrics (m : StreamMetricsM) (now : ℚ) : StreamMetricsM :=
  let window_start := now - (m.window_seconds : ℚ)
  { m with
    message_ts := m.message_ts.dropWhile (fun t => decide (t < window_start))
    latency_samples := m.latency_samples.dropWhile (fun s => decide (s.timestamp < window_start))
    neg_skew_samples := dropExcessFront m.neg_skew_samples (max (m.window_seconds * 10) 10) }

/-- `StreamMetrics.messages_per_second` (lines 114-117): trim, then window
count over `max(window_seconds, 1)`. -/
def messagesPerSecond (m : StreamMetricsM) (now : ℚ) : ℚ :=
  ((trimMetrics m now).message_ts.length : ℚ) / ((max m.window_seconds 1 : ℕ) : ℚ)

/-- Result of `StreamMetrics._normalize_latency`. -/
structure NormalizedLatency where
  latency_ms : ℚ
  skew_ms : Option ℚ
  backlog : Bool
  outlier : Bool
  deriving DecidableEq, Repr

/-- `StreamMetrics._normalize_latency` (lines 176-190): a negative raw value
is clock skew (clamped to 0, outlier below -250 ms); above 2000 ms the
sample is backlog, above 10000 ms additionally an outlier. -/
def normalizeLatency (raw0 : ℚ) : NormalizedLatency :=
  let skew_ms : Option ℚ := if raw0 < 0 then some |raw0| else none
  let outlierNeg : Bool := decide (raw0 < -250)
  let raw1 : ℚ := if raw0 < 0 then 0 else raw0
  { latency_ms := raw1
    skew_ms := skew_ms
    backlog := decide (2000 < raw1)
    outlier := outlierNeg || decide (10000 < raw1) }

/-- `StreamMetrics._update_clock_offset` (lines 167-172): fold the magnitude
of a non-outlier negative raw sample into the skew history and return the
new history together with its median clamped to `[0, 1000]`. -/
def updateClockOffset (m : StreamMetricsM) (raw_ms : ℚ) (outlier : Bool) :
    List ℚ × ℚ :=
  let negSkew :=
    if raw_ms < 0 ∧ outlier = false then m.neg_skew_samples ++ [|raw_ms|]
    else m.neg_skew_samples
  if negSkew = [] then (negSkew, 0)
  else (negSkew, min (max (listMedian negSkew) 0) 1000)

/-- `StreamMetrics._parse_timestamp` (lines 192-205) up to the call into
`datetime.fromisoformat`: trim, strip a trailing `Z`, truncate/pad the
fractional part to 6 digits, then hand the string to the library parser.
The library parser (Python stdlib, outside this repository) is the
`fromiso` parameter; `none` models a `ValueError`. -/
def parseTimestampWith (fromiso : String → Option ℚ) (value : String) : Option ℚ :=
  let raw := value.trim
  let raw := if raw.endsWith "Z" then raw.dropRight 1 else raw
  let raw :=
    if raw.contains '.' then
      match raw.splitOn "." with
      | [] => raw
      | head :: rest =>
        let frac := String.intercalate "." rest
        let frac6 := frac.take 6
        let frac6 := frac6 ++ String.mk (List.replicate (6 - frac.length) '0')
        head ++ "." ++ frac6
    else raw
  fromiso raw

/-- `StreamMetrics.record_latency` (lines 118-147), with the stdlib
timestamp parser abstracted as `fromiso`.  A falsy (`None` or empty)
server time and a `ValueError` from the parser both return before any
field is touched. -/
def recordLatency (fromiso : String → Option ℚ) (m : StreamMetricsM)
    (server_time : Option String) (received_ts : ℚ) : StreamMetricsM :=
  match server_time with
  | none => m
  | some s =>
    if s = "" then m
    else
      match parseTimestampWith fromiso s with
      | none => m
      | some server_ts =>
        let raw_ms := (received_ts - server_ts) * 1000
        let nl := normalizeLatency raw_ms
        let uco := updateClockOffset m raw_ms nl.outlier
        let effective_ms := max 0 (raw_ms + uco.2)
        let sample : StreamLatencySample :=
          { raw_ms := raw_ms
            milliseconds := nl.latency_ms
            effective_ms := effective_ms
            clock_offset_ms := uco.2
            backlog := nl.backlog
            skew_ms := nl.skew_ms
            outlier := nl.outlier
            timestamp := received_ts }
        trimMetrics
          { m with
            last_latency_raw_ms := some raw_ms
            last_latency_ms := some nl.latency_ms
            last_skew_ms := nl.skew_ms
            last_backlog := some nl.backlog
            last_effective_ms := some effective_ms
            clock_offset_ms := uco.2
            last_outlier := some nl.outlier
            neg_skew_samples := uco.1
            latency_samples := m.latency_samples ++ [sample] }
          received_ts

/-- `StreamMetrics.latency_stats` (lines 149-156): `(last, p95, mean)` of
the clamped (`milliseconds`) values of the non-outlier samples. -/
def latencyStats (m : StreamMetricsM) : Option ℚ × Option ℚ × Option ℚ :=
  let values := (m.latency_samples.filter (fun s => !s.outlier)).map (·.milliseconds)
  if values = [] then (none, none, none)
  else
    let values := sortQ values
    let mean := values.sum / values.length
    (m.last_latency_ms, some (values.getD (p95Index values.length) 0), some mean)

/-- `StreamMetrics.effective_latency_stats` (lines 158-165): `(last, p95,
mean)` of the effective values of the non-outlier samples. -/
def effectiveLatencyStats (m : StreamMetricsM) : Option ℚ × Option ℚ × Option ℚ :=
  let values := (m.latency_samples.filter (fun s => !s.outlier)).map (·.effective_ms)
  if values = [] then (none, none, none)
  else
    let values := sortQ values
    let mean := values.sum / values.length
    (m.last_effective_ms, some (values.getD (p95Index values.length) 0), some mean)

/-- `StreamMetrics.snapshot` (lines 207-229), with the wall-clock reading of
`messages_per_second` made explicit as `now`: both the unqualified and the
`latency_effective_*` triples come from `effective_latency_stats`, the
`latency_clamped_*` triple from `latency_stats`. -/
def streamSnapshot (m : StreamMetricsM) (now : ℚ) : StreamMetricsSnapshot :=
  let eff := effectiveLatencyStats m
  let clamped := latencyStats m
  { messages_total := m.messages_total
    messages_per_sec := messagesPerSecond m now
    reconnect_waits := m.reconnect_waits
    errors := m.errors
    last_error := m.last_error
    last_message_ts := m.last_message_ts
    last_success_ts := m.last_success_ts
    last_error_ts := m.last_error_ts
    last_reconnect_ts := m.last_reconnect_ts
    latency_last_ms := eff.1
    latency_p95_ms := eff.2.1
    latency_mean_ms := eff.2.2
    latency_clamped_last_ms := clamped.1
    latency_clamped_p95_ms := clamped.2.1
    latency_clamped_mean_ms := clamped.2.2
    latency_effective_last_ms := eff.1
    latency_effective_p95_ms := eff.2.1
    latency_effective_mean_ms := eff.2.2 }

/-! ## Retraining gate (`retrain_gate.py`)

The retrain gate reads the filesystem.  The environment `RetrainEnv`
models exactly what the gate's primitive reads observe, at the parsed
level: a file is `none` when absent; JSONL lines are modelled after JSON
decoding (a line that is blank or fails `json.loads` is `none`); numeric
JSON fields are `Option ℚ` (`none` when the key is absent or its value is
not an `int`/`float`); the `time.time()` wall clock is the `now` field. -/

/-- One entry of a scoring record's `results` list.  `predChain` is the
numeric value of the Python coalescing `item.get("predicted") or
item.get("mean") or item.get("forecast")` (when numeric), `prevChain` the
value of `item.get("prev") or item.get("baseline")`. -/
structure ScoreResultItem where
  actual : Option ℚ
  predChain : Option ℚ
  prevChain : Option ℚ
  deriving DecidableEq, Repr

/-- One scoring record of the prediction-scores JSONL log.  `mae` and
`mean_abs_error` hold the numeric values of those fields when present and
numeric (the `isinstance(..., (int, float))` guards). -/
structure ScoreRec where
  mae : Option ℚ
  mean_abs_error : Option ℚ
  results : List ScoreResultItem
  deriving DecidableEq, Repr

/-- The gate dict inside a monitor-log line; `blocked` is the truthiness of
its `"blocked"` entry (`false` when the key is absent or falsy). -/
structure TradeGateInfo where
  blocked : Bool
  deriving DecidableEq, Repr

/-- The decoded last line of the monitor log: the optional top-level
`"trade_gate"` dict and the optional `"rest"`-nested one. -/
structure MonitorLast where
  trade_gate : Option TradeGateInfo
  rest_trade_gate : Option TradeGateInfo
  deriving DecidableEq, Repr

/-- The scores JSONL file: modification time plus decoded lines. -/
structure ScoresFile where
  mtime : ℚ
  lines : List (Option ScoreRec)
  deriving DecidableEq, Repr

/-- The monitor JSONL file: modification time plus the result of
`_last_json_line` on it (`none` when the file is empty, its last non-blank
line is not valid JSON, or that line decodes to a falsy value). -/
structure MonitorFile where
  mtime : ℚ
  lastLine : Option MonitorLast
  deriving DecidableEq, Repr

/-- Everything `evaluate_retrain_gate` observes of the outside world. -/
structure RetrainEnv where
  now : ℚ
  scores : Option ScoresFile
  monitor : Option MonitorFile
  predMtime : Option ℚ
  candleLastTime : Option ℚ
  deriving DecidableEq, Repr

/-- The numeric policy knobs of `evaluate_retrain_gate` (lines 179-194). -/
structure RetrainParams where
  window_n : ℤ
  min_coverage : ℚ
  fixed_mae_threshold : ℚ
  volatility_scale : ℚ
  stale_monitor_s : ℚ
  stale_pred_s : ℚ
  stale_score_s : ℚ
  stale_candle_s : ℚ
  deriving DecidableEq, Repr

/-- `RetrainGateDecision.details` — the supporting counters dict that every
branch of `evaluate_retrain_gate` fills in. -/
structure RetrainDetails where
  records : ℕ
  candle_age_s : Option ℚ
  monitor_stale : Bool
  pred_stale : Bool
  scores_stale : Bool
  deriving DecidableEq, Repr

/-- `RetrainGateDecision` (retrain_gate.py lines 19-30). -/
structure RetrainGateDecision where
  allow : Bool
  reason : String
  coverage : Option ℚ
  mae : Option ℚ
  mae_threshold : Option ℚ
  window_n : ℤ
  fields_used : List String
  blocked : Bool
  stale : Bool
  details : RetrainDetails
  deriving DecidableEq, Repr

/-- `read_last_jsonl` (lines 48-62): an absent file yields `[]`; otherwise
every line that decodes is kept and the Python slice `records[-limit:]`
taken. -/
def readLastJsonl (file : Option ScoresFile) (limit : ℤ) : List ScoreRec :=
  match file with
  | none => []
  | some f => pySliceLast (f.lines.filterMap id) limit

/-- `is_file_stale` (lines 65-70): an absent file is stale; a present one is
stale when its age exceeds `max_age_s`. -/
def isFileStale (mtime : Option ℚ) (now max_age_s : ℚ) : Bool :=
  match mtime with
  | none => true
  | some t => decide (max_age_s < now - t)

/-- `latest_candle_age` (lines 73-85), modelled at the parsed level: the
input is the decoded `time` field of the last JSON line of the newest
candle file (`none` when there is no candle file, the newest one has no
non-blank line, the line is not valid JSON, or its `time` field does not
parse); the age is floored at 0. -/
def latestCandleAge (candleLastTime : Option ℚ) (now : ℚ) : Option ℚ :=
  candleLastTime.map (fun ts => max 0 (now - ts))

/-- `read_trade_gate_blocked` (lines 110-117): `false` whenever
`_last_json_line` yields nothing; otherwise the truthiness of the
`blocked` entry of the top-level `trade_gate` dict, falling back to the
`rest`-nested one. -/
def readTradeGateBlocked (last : Option MonitorLast) : Bool :=
  match last with
  | none => false
  | some rec =>
    match rec.trade_gate with
    | some gate => gate.blocked
    | none =>
      match rec.rest_trade_gate with
      | some gate => gate.blocked
      | none => false

/-- The per-record MAE value of `compute_score_metrics` (lines 126-141): an
explicit `mae` field first, else `mean_abs_error`, else the mean absolute
`(actual, predicted)` difference over `results` when any pair exists. -/
def recMae (rec : ScoreRec) : Option ℚ :=
  match rec.mae with
  | some v => some v
  | none =>
    match rec.mean_abs_error with
    | some v => some v
    | none =>
      let diffs := rec.results.filterMap (fun item =>
        match item.actual, item.predChain with
        | some a, some p => some |a - p|
        | _, _ => none)
      if diffs = [] then none else some (diffs.sum / diffs.length)

/-- Which extraction path `recMae` used, for `fields_used`. -/
def recMaeField (rec : ScoreRec) : Option String :=
  match rec.mae with
  | some _ => some "mae"
  | none =>
    match rec.mean_abs_error with
    | some _ => some "mean_abs_error"
    | none =>
      if rec.results.filterMap (fun item =>
        match item.actual, item.predChain with
        | some a, some p => some |a - p|
        | _, _ => none) = [] then none
      else some "results_actual_pred"

/-- The absolute realized moves of one record (lines 143-149): the
`|actual - prev/baseline|` values over its `results` list. -/
def recAbsMoves (rec : ScoreRec) : List ℚ :=
  rec.results.filterMap (fun item =>
    match item.actual, item.prevChain with
    | some a, some p => some |a - p|
    | _, _ => none)

/-- `compute_score_metrics` (lines 120-153): mean of the per-record MAE
values, median of all absolute moves, and the sorted set of extraction
paths used. -/
def computeScoreMetrics (records : List ScoreRec) :
    Option ℚ × Option ℚ × List String :=
  if records = [] then (none, none, [])
  else
    let maeValues := records.filterMap recMae
    let absMoves := records.flatMap recAbsMoves
    let fields :=
      (if records.any (fun r => recMaeField r = some "mae") then ["mae"] else []) ++
      (if records.any (fun r => recMaeField r = some "mean_abs_error")
        then ["mean_abs_error"] else []) ++
      (if records.any (fun r => recMaeField r = some "results_actual_pred")
        then ["results_actual_pred"] else []) ++
      (if records.any (fun r => recAbsMoves r ≠ []) then ["results_actual_prev"] else [])
    let mae := if maeValues = [] then none else some (maeValues.sum / maeValues.length)
    let medianMove := if absMoves = [] then none else some (listMedian absMoves)
    (mae, medianMove, fields)

/-- `records = read_last_jsonl(scores_path, window_n)` (line 195). -/
def retrainRecords (env : RetrainEnv) (p : RetrainParams) : List ScoreRec :=
  readLastJsonl env.scores p.window_n

/-- `coverage = len(records) / max(window_n, 1) if records else None`
(line 197). -/
def retrainCoverage (env : RetrainEnv) (p : RetrainParams) : Option ℚ :=
  if retrainRecords env p = [] then none
  else some ((retrainRecords env p).length / ((max p.window_n 1 : ℤ) : ℚ))

/-- `monitor_stale` (line 199). -/
def monitorStaleB (env : RetrainEnv) (p : RetrainParams) : Bool :=
  isFileStale (env.monitor.map (·.mtime)) env.now p.stale_monitor_s

/-- `pred_stale` (line 200). -/
def predStaleB (env : RetrainEnv) (p : RetrainParams) : Bool :=
  isFileStale env.predMtime env.now p.stale_pred_s

/-- `scores_stale` (line 201). -/
def scoresStaleB (env : RetrainEnv) (p : RetrainParams) : Bool :=
  isFileStale (env.scores.map (·.mtime)) env.now p.stale_score_s

/-- The overall `stale` flag (lines 202-205): the disjunction of the three
file-age checks, forced to `true` when the newest candle data is absent or
older than `stale_candle_s`. -/
def retrainStaleB (env : RetrainEnv) (p : RetrainParams) : Bool :=
  match latestCandleAge env.candleLastTime env.now with
  | none => true
  | some age =>
    if p.stale_candle_s < age then true
    else monitorStaleB env p || predStaleB env p || scoresStaleB env p

/-- `blocked = read_trade_gate_blocked(monitor_path)` (line 207). -/
def retrainBlocked (env : RetrainEnv) : Bool :=
  readTradeGateBlocked (env.monitor.bind (·.lastLine))

/-- The `bootstrap_pred` guard (line 209): predictions stale, monitor
fresh, execution gate not blocked, and no usable score history. -/
def bootstrapCondB (env : RetrainEnv) (p : RetrainParams) : Bool :=
  predStaleB env p && !monitorStaleB env p && !retrainBlocked env &&
    ((retrainCoverage env p).isNone || scoresStaleB env p)

/-- The `details` dict filled in by every branch. -/
def retrainDetails (env : RetrainEnv) (p : RetrainParams) : RetrainDetails :=
  { records := (retrainRecords env p).length
    candle_age_s := latestCandleAge env.candleLastTime env.now
    monitor_stale := monitorStaleB env p
    pred_stale := predStaleB env p
    scores_stale := scoresStaleB env p }

/-- The adaptive MAE threshold (lines 283-285): `median_abs_move *
volatility_scale` when a volatility proxy exists, else the fixed fallback. -/
def maeThresholdQ (env : RetrainEnv) (p : RetrainParams) : ℚ :=
  match (computeScoreMetrics (retrainRecords env p)).2.1 with
  | some m => m * p.volatility_scale
  | none => p.fixed_mae_threshold

/-- `evaluate_retrain_gate` (retrain_gate.py lines 179-330): the decision
cascade in source order — `bootstrap_pred` (allow), `no_scores` (deny),
`stale_pipeline` (deny), `trade_gate_blocked` (deny), `low_coverage`
(allow), `mae_high` (allow), `metrics_ok` (deny). -/
def evaluateRetrainGate (env : RetrainEnv) (p : RetrainParams) :
    RetrainGateDecision :=
  let metrics := computeScoreMetrics (retrainRecords env p)
  if bootstrapCondB env p then
    { allow := true, reason := "bootstrap_pred"
      coverage := some ((retrainCoverage env p).getD 0)
      mae := metrics.1, mae_threshold := none
      window_n := ((retrainRecords env p).length : ℤ)
      fields_used := metrics.2.2, blocked := retrainBlocked env
      stale := retrainStaleB env p, details := retrainDetails env p }
  else
    match retrainCoverage env p with
    | none =>
      { allow := false, reason := "no_scores", coverage := some 0
        mae := none, mae_threshold := none, window_n := p.window_n
        fields_used := metrics.2.2, blocked := retrainBlocked env
        stale := retrainStaleB env p, details := retrainDetails env p }
    | some cov =>
      if retrainStaleB env p then
        { allow := false, reason := "stale_pipeline", coverage := some cov
          mae := metrics.1, mae_threshold := none
          window_n := ((retrainRecords env p).length : ℤ)
          fields_used := metrics.2.2, blocked := retrainBlocked env
          stale := retrainStaleB env p, details := retrainDetails env p }
      else if retrainBlocked env then
        { allow := false, reason := "trade_gate_blocked", coverage := some cov
          mae := metrics.1, mae_threshold := none
          window_n := ((retrainRecords env p).length : ℤ)
          fields_used := metrics.2.2, blocked := retrainBlocked env
          stale := retrainStaleB env p, details := retrainDetails env p }
      else if cov < p.min_coverage then
        { allow := true, reason := "low_coverage", coverage := some cov
          mae := metrics.1, mae_threshold := none
          window_n := ((retrainRecords env p).length : ℤ)
          fields_used := metrics.2.2, blocked := retrainBlocked env
          stale := retrainStaleB env p, details := retrainDetails env p }
      else
        match metrics.1 with
        | some mae =>
          if maeThresholdQ env p < mae then
            { allow := true, reason := "mae_high", coverage := some cov
              mae := some mae, mae_threshold := some (maeThresholdQ env p)
              window_n := ((retrainRecords env p).length : ℤ)
              fields_used := metrics.2.2, blocked := retrainBlocked env
              stale := retrainStaleB env p, details := retrainDetails env p }
          else
            { allow := false, reason := "metrics_ok", coverage := some cov
              mae := some mae, mae_threshold := some (maeThresholdQ env p)
              window_n := ((retrainRecords env p).length : ℤ)
              fields_used := metrics.2.2, blocked := retrainBlocked env
              stale := retrainStaleB env p, details := retrainDetails env p }
        | none =>
          { allow := false, reason := "metrics_ok", coverage := some cov
            mae := none, mae_threshold := some (maeThresholdQ env p)
            window_n := ((retrainRecords env p).length : ℤ)
            fields_used := metrics.2.2, blocked := retrainBlocked env
            stale := retrainStaleB env p, details := retrainDetails env p }

/-! ## Frame lemmas for the gate's update phases -/

theorem stepRecord_blocked (st : TradeLatencyGateState) (inp : GateUpdateIn) :
    (stepRecord st inp).blocked = st.blocked := rfl

theorem stepRecord_total (st : TradeLatencyGateState) (inp : GateUpdateIn) :
    (stepRecord st inp).total_samples = st.total_samples + 1 := rfl

theorem stepRecord_latched (st : TradeLatencyGateState) (inp : GateUpdateIn) :
    (stepRecord st inp).warn_p95_latched = st.warn_p95_latched := rfl

theorem stepRecord_warnStreak (st : TradeLatencyGateState) (inp : GateUpdateIn) :
    (stepRecord st inp).p95_warn_streak = st.p95_warn_streak := rfl

theorem stepRecord_clearStreak (st : TradeLatencyGateState) (inp : GateUpdateIn) :
    (stepRecord st inp).p95_clear_streak = st.p95_clear_streak := rfl

theorem p95StreakPhase_latched (cfg : TradeLatencyGateConfig)
    (st : TradeLatencyGateState) (p95 : Option ℚ) (onT offT : ℚ) :
    (p95StreakPhase cfg st p95 onT offT).warn_p95_latched = st.warn_p95_latched := by
  unfold p95StreakPhase
  split
  · split
    · split
      · rfl
      · split <;> rfl
    · rfl
  · rfl

theorem p95StreakPhase_blocked (cfg : TradeLatencyGateConfig)
    (st : TradeLatencyGateState) (p95 : Option ℚ) (onT offT : ℚ) :
    (p95StreakPhase cfg st p95 onT offT).blocked = st.blocked := by
  unfold p95StreakPhase
  split
  · split
    · split
      · rfl
      · split <;> rfl
    · rfl
  · rfl

theorem p95StreakPhase_total (cfg : TradeLatencyGateConfig)
    (st : TradeLatencyGateState) (p95 : Option ℚ) (onT offT : ℚ) :
    (p95StreakPhase cfg st p95 onT offT).total_samples = st.total_samples := by
  unfold p95StreakPhase
  split
  · split
    · split
      · rfl
      · split <;> rfl
    · rfl
  · rfl

theorem p95StreakPhase_good (cfg : TradeLatencyGateConfig)
    (st : TradeLatencyGateState) (p95 : Option ℚ) (onT offT : ℚ) :
    (p95StreakPhase cfg st p95 onT offT).consecutive_good = st.consecutive_good := by
  unfold p95StreakPhase
  split
  · split
    · split
      · rfl
      · split <;> rfl
    · rfl
  · rfl

theorem p95StreakPhase_backlogStreak (cfg : TradeLatencyGateConfig)
    (st : TradeLatencyGateState) (p95 : Option ℚ) (onT offT : ℚ) :
    (p95StreakPhase cfg st p95 onT offT).consecutive_backlog = st.consecutive_backlog := by
  unfold p95StreakPhase
  split
  · split
    · split
      · rfl
      · split <;> rfl
    · rfl
  · rfl

theorem p95LatchPhase_blocked (cfg : TradeLatencyGateConfig)
    (st : TradeLatencyGateState) :
    (p95LatchPhase cfg st).blocked = st.blocked := by
  unfold p95LatchPhase latchOff latchOn
  split <;> split <;> rfl

theorem p95LatchPhase_total (cfg : TradeLatencyGateConfig)
    (st : TradeLatencyGateState) :
    (p95LatchPhase cfg st).total_samples = st.total_samples := by
  unfold p95LatchPhase latchOff latchOn
  split <;> split <;> rfl

theorem p95LatchPhase_good (cfg : TradeLatencyGateConfig)
    (st : TradeLatencyGateState) :
    (p95LatchPhase cfg st).consecutive_good = st.consecutive_good := by
  unfold p95LatchPhase latchOff latchOn
  split <;> split <;> rfl

theorem p95LatchPhase_backlogStreak (cfg : TradeLatencyGateConfig)
    (st : TradeLatencyGateState) :
    (p95LatchPhase cfg st).consecutive_backlog = st.consecutive_backlog := by
  unfold p95LatchPhase latchOff latchOn
  split <;> split <;> rfl

theorem stepPercentile_blocked (cfg : TradeLatencyGateConfig)
    (st : TradeLatencyGateState) (samples : List ℚ) (e : ℚ) :
    (stepPercentile cfg st samples e).1.blocked = st.blocked := by
  unfold stepPercentile
  rw [p95LatchPhase_blocked, p95StreakPhase_blocked]
  rfl

theorem stepPercentile_total (cfg : TradeLatencyGateConfig)
    (st : TradeLatencyGateState) (samples : List ℚ) (e : ℚ) :
    (stepPercentile cfg st samples e).1.total_samples = st.total_samples := by
  unfold stepPercentile
  rw [p95LatchPhase_total, p95StreakPhase_total]
  rfl

theorem stepPercentile_good (cfg : TradeLatencyGateConfig)
    (st : TradeLatencyGateState) (samples : List ℚ) (e : ℚ) :
    (stepPercentile cfg st samples e).1.consecutive_good = st.consecutive_good := by
  unfold stepPercentile
  rw [p95LatchPhase_good, p95StreakPhase_good]
  rfl

theorem stepPercentile_backlogStreak (cfg : TradeLatencyGateConfig)
    (st : TradeLatencyGateState) (samples : List ℚ) (e : ℚ) :
    (stepPercentile cfg st samples e).1.consecutive_backlog = st.consecutive_backlog := by
  unfold stepPercentile
  rw [p95LatchPhase_backlogStreak, p95StreakPhase_backlogStreak]
  rfl

theorem applyPercentile_blocked (cfg : TradeLatencyGateConfig)
    (st : TradeLatencyGateState) (samples : List ℚ) (inp : GateUpdateIn) :
    (applyPercentile cfg st samples inp).1.blocked = st.blocked := by
  unfold applyPercentile
  rcases inp.effective_ms with _ | e
  · rfl
  · by_cases h : inp.outlier <;> simp [h, stepPercentile_blocked]

theorem applyPercentile_total (cfg : TradeLatencyGateConfig)
    (st : TradeLatencyGateState) (samples : List ℚ) (inp : GateUpdateIn) :
    (applyPercentile cfg st samples inp).1.total_samples = st.total_samples := by
  unfold applyPercentile
  rcases inp.effective_ms with _ | e
  · rfl
  · by_cases h : inp.outlier <;> simp [h, stepPercentile_total]

theorem applyPercentile_good (cfg : TradeLatencyGateConfig)
    (st : TradeLatencyGateState) (samples : List ℚ) (inp : GateUpdateIn) :
    (applyPercentile cfg st samples inp).1.consecutive_good = st.consecutive_good := by
  unfold applyPercentile
  rcases inp.effective_ms with _ | e
  · rfl
  · by_cases h : inp.outlier <;> simp [h, stepPercentile_good]

theorem applyPercentile_backlogStreak (cfg : TradeLatencyGateConfig)
    (st : TradeLatencyGateState) (samples : List ℚ) (inp : GateUpdateIn) :
    (applyPercentile cfg st samples inp).1.consecutive_backlog = st.consecutive_backlog := by
  unfold applyPercentile
  rcases inp.effective_ms with _ | e
  · rfl
  · by_cases h : inp.outlier <;> simp [h, stepPercentile_backlogStreak]

theorem stepStreaks_blocked (cfg : TradeLatencyGateConfig)
    (st : TradeLatencyGateState) (inp : GateUpdateIn) :
    (stepStreaks cfg st inp).blocked = st.blocked := by
  unfold stepStreaks
  split
  · rfl
  · split <;> rfl

theorem stepStreaks_total (cfg : TradeLatencyGateConfig)
    (st : TradeLatencyGateState) (inp : GateUpdateIn) :
    (stepStreaks cfg st inp).total_samples = st.total_samples := by
  unfold stepStreaks
  split
  · rfl
  · split <;> rfl

theorem stepStreaks_latched (cfg : TradeLatencyGateConfig)
    (st : TradeLatencyGateState) (inp : GateUpdateIn) :
    (stepStreaks cfg st inp).warn_p95_latched = st.warn_p95_latched := by
  unfold stepStreaks
  split
  · rfl
  · split <;> rfl

theorem stepStreaks_warnStreak (cfg : TradeLatencyGateConfig)
    (st : TradeLatencyGateState) (inp : GateUpdateIn) :
    (stepStreaks cfg st inp).p95_warn_streak = st.p95_warn_streak := by
  unfold stepStreaks
  split
  · rfl
  · split <;> rfl

theorem stepStreaks_clearStreak (cfg : TradeLatencyGateConfig)
    (st : TradeLatencyGateState) (inp : GateUpdateIn) :
    (stepStreaks cfg st inp).p95_clear_streak = st.p95_clear_streak := by
  unfold stepStreaks
  split
  · rfl
  · split <;> rfl

theorem stepBlocked_total (cfg : TradeLatencyGateConfig)
    (st : TradeLatencyGateState) :
    (stepBlocked cfg st).total_samples = st.total_samples := by
  unfold stepBlocked
  split
  · rfl
  · split
    · rfl
    · split <;> rfl

theorem stepBlocked_good (cfg : TradeLatencyGateConfig)
    (st : TradeLatencyGateState) :
    (stepBlocked cfg st).consecutive_good = st.consecutive_good := by
  unfold stepBlocked
  split
  · rfl
  · split
    · rfl
    · split <;> rfl

theorem stepBlocked_latched (cfg : TradeLatencyGateConfig)
    (st : TradeLatencyGateState) :
    (stepBlocked cfg st).warn_p95_latched = st.warn_p95_latched := by
  unfold stepBlocked
  split
  · rfl
  · split
    · rfl
    · split <;> rfl

theorem stepBlocked_warnStreak (cfg : TradeLatencyGateConfig)
    (st : TradeLatencyGateState) :
    (stepBlocked cfg st).p95_warn_streak = st.p95_warn_streak := by
  unfold stepBlocked
  split
  · rfl
  · split
    · rfl
    · split <;> rfl

theorem stepBlocked_clearStreak (cfg : TradeLatencyGateConfig)
    (st : TradeLatencyGateState) :
    (stepBlocked cfg st).p95_clear_streak = st.p95_clear_streak := by
  unfold stepBlocked
  split
  · rfl
  · split
    · rfl
    · split <;> rfl

theorem stepHardBlock_total (st : TradeLatencyGateState) (inp : GateUpdateIn) :
    (stepHardBlock st inp).total_samples = st.total_samples := by
  unfold stepHardBlock
  split <;> rfl

theorem stepHardBlock_good (st : TradeLatencyGateState) (inp : GateUpdateIn) :
    (stepHardBlock st inp).consecutive_good = st.consecutive_good := by
  unfold stepHardBlock
  split <;> rfl

theorem stepHardBlock_latched (st : TradeLatencyGateState) (inp : GateUpdateIn) :
    (stepHardBlock st inp).warn_p95_latched = st.warn_p95_latched := by
  unfold stepHardBlock
  split <;> rfl

theorem stepHardBlock_warnStreak (st : TradeLatencyGateState) (inp : GateUpdateIn) :
    (stepHardBlock st inp).p95_warn_streak = st.p95_warn_streak := by
  unfold stepHardBlock
  split <;> rfl

theorem stepHardBlock_clearStreak (st : TradeLatencyGateState) (inp : GateUpdateIn) :
    (stepHardBlock st inp).p95_clear_streak = st.p95_clear_streak := by
  unfold stepHardBlock
  split <;> rfl

theorem stepHardBlock_blocked_true (st : TradeLatencyGateState)
    (inp : GateUpdateIn) (h : st.blocked = true) :
    (stepHardBlock st inp).blocked = true := by
  unfold stepHardBlock
  split <;> simp [h]

theorem update_config (g : TradeLatencyGate) (inp : GateUpdateIn) :
    (g.update inp).config = g.config := by
  unfold TradeLatencyGate.update
  split <;> rfl

theorem update_none_frame (g : TradeLatencyGate) (inp : GateUpdateIn)
    (h : inp.raw_ms = none ∧ inp.effective_ms = none) : g.update inp = g := by
  unfold TradeLatencyGate.update
  rw [if_pos h]

theorem runUpdates_cons (g : TradeLatencyGate) (inp : GateUpdateIn)
    (l : List GateUpdateIn) :
    runUpdates g (inp :: l) = runUpdates (g.update inp) l := rfl

theorem update_state_eq (g : TradeLatencyGate) (inp : GateUpdateIn)
    (h : ¬(inp.raw_ms = none ∧ inp.effective_ms = none)) :
    (g.update inp).state =
      stepHardBlock
        (stepBlocked g.config
          (stepStreaks g.config
            (applyPercentile g.config (stepRecord g.state inp) g.effectiveSamples inp).1
            inp))
        inp := by
  unfold TradeLatencyGate.update
  rw [if_neg h]

theorem update_total_succ (g : TradeLatencyGate) (inp : GateUpdateIn)
    (h : ¬(inp.raw_ms = none ∧ inp.effective_ms = none)) :
    (g.update inp).state.total_samples = g.state.total_samples + 1 := by
  rw [update_state_eq g inp h, stepHardBlock_total, stepBlocked_total,
    stepStreaks_total, applyPercentile_total, stepRecord_total]

theorem update_blocked_of_total_lt (g : TradeLatencyGate) (inp : GateUpdateIn)
    (h0 : g.state.total_samples < g.config.min_samples → g.state.blocked = true) :
    (g.update inp).state.total_samples < (g.update inp).config.min_samples →
      (g.update inp).state.blocked = true := by
  by_cases h : inp.raw_ms = none ∧ inp.effective_ms = none
  · rw [update_none_frame g inp h]
    exact h0
  · intro hlt
    rw [update_config] at hlt
    rw [update_state_eq g inp h] at hlt ⊢
    rw [stepHardBlock_total, stepBlocked_total] at hlt
    apply stepHardBlock_blocked_true
    unfold stepBlocked
    rw [if_pos hlt]

theorem runUpdates_blocked_of_total_lt (l : List GateUpdateIn) :
    ∀ g : TradeLatencyGate,
      (g.state.total_samples < g.config.min_samples → g.state.blocked = true) →
      ((runUpdates g l).state.total_samples < (runUpdates g l).config.min_samples →
        (runUpdates g l).state.blocked = true) := by
  induction l with
  | nil => exact fun g h0 => h0
  | cons inp rest ih =>
    intro g h0
    rw [runUpdates_cons]
    exact ih (g.update inp) (update_blocked_of_total_lt g inp h0)

/-- C1: cold-start fail-closed.  The gate state is constructed with
`blocked = true`, and after any sequence of `update` calls, whenever
`total_samples` is still strictly below the config's `min_samples`, the
`blocked` flag is `true`, regardless of the samples fed in. -/
theorem cold_start_fail_closed (cfg : TradeLatencyGateConfig)
    (l : List GateUpdateIn) :
    (initGate cfg).state.blocked = true ∧
    ((runUpdates (initGate cfg) l).state.total_samples <
        (runUpdates (initGate cfg) l).config.min_samples →
      (runUpdates (initGate cfg) l).state.blocked = true) := by
  constructor
  · rfl
  · exact runUpdates_blocked_of_total_lt l (initGate cfg) (fun _ => rfl)

/-- C1 witness: with the default config (`min_samples = 60`) and a single
ordinary sample, the gate is still blocked. -/
theorem cold_start_fail_closed_witness :
    (initGate {}).state.blocked = true ∧
    (runUpdates (initGate {})
        [{ raw_ms := some 10, effective_ms := some 10, backlog := false,
           outlier := false, skew_ms := none }]).state.blocked = true :=
  ⟨(cold_start_fail_closed {} []).1,
   (cold_start_fail_closed {}
      [{ raw_ms := some 10, effective_ms := some 10, backlog := false,
         outlier := false, skew_ms := none }]).2 (by decide)⟩

/-- C9: implicit no-op update.  A call of `TradeLatencyGate.update` with
both `raw_ms = None` and `effective_ms = None` returns the gate completely
unchanged — no counter, last-sample field, streak, latch, buffer, or
`blocked` value moves, whatever the `backlog`/`outlier`/`skew_ms`
arguments are. -/
theorem noop_update_frame (g : TradeLatencyGate) (b o : Bool) (sk : Option ℚ) :
    g.update { raw_ms := none, effective_ms := none, backlog := b,
               outlier := o, skew_ms := sk } = g :=
  update_none_frame g _ ⟨rfl, rfl⟩

theorem stepBlocked_unblock (cfg : TradeLatencyGateConfig)
    (st : TradeLatencyGateState) (hb : st.blocked = true)
    (h : (stepBlocked cfg st).blocked = false) :
    cfg.min_samples ≤ st.total_samples ∧
      cfg.consecutive_good_to_unblock ≤ st.consecutive_good := by
  unfold stepBlocked at h
  split at h
  · simp at h
  · split at h
    · simp at h
    · split at h
      · rename_i hlt _ hcond
        exact ⟨Nat.le_of_not_lt hlt, hcond.2⟩
      · rw [hb] at h
        simp at h

theorem update_hard_block (g : TradeLatencyGate) (inp : GateUpdateIn)
    (hba : inp.backlog = true ∨ inp.outlier = true)
    (hne : ¬(inp.raw_ms = none ∧ inp.effective_ms = none)) :
    (g.update inp).state.blocked = true := by
  rw [update_state_eq g inp hne]
  unfold stepHardBlock
  have hcond : (inp.backlog || inp.outlier) = true := by
    rcases hba with h | h <;> simp [h]
  rw [if_pos hcond]

theorem update_unblock (g : TradeLatencyGate) (inp : GateUpdateIn)
    (hb : g.state.blocked = true)
    (h : (g.update inp).state.blocked = false) :
    g.config.min_samples ≤ (g.update inp).state.total_samples ∧
      g.config.consecutive_good_to_unblock ≤ (g.update inp).state.consecutive_good ∧
      inp.backlog = false ∧ inp.outlier = false := by
  by_cases hne : inp.raw_ms = none ∧ inp.effective_ms = none
  · rw [update_none_frame g inp hne] at h
    rw [hb] at h
    simp at h
  · rw [update_state_eq g inp hne] at h ⊢
    unfold stepHardBlock at h ⊢
    split at h
    · simp at h
    · rename_i hcond
      rw [if_neg hcond]
      simp only [Bool.or_eq_true, not_or, Bool.not_eq_true] at hcond
      obtain ⟨hback, hout⟩ := hcond
      have hb3 :
          (stepStreaks g.config
            (applyPercentile g.config (stepRecord g.state inp) g.effectiveSamples inp).1
            inp).blocked = true := by
        rw [stepStreaks_blocked, applyPercentile_blocked, stepRecord_blocked, hb]
      obtain ⟨h1, h2⟩ := stepBlocked_unblock g.config _ hb3 h
      refine ⟨?_, ?_, hback, hout⟩
      · rwa [stepBlocked_total]
      · rwa [stepBlocked_good]

/-- C2: asymmetric block.  (1) Any real sample flagged `backlog` or
`outlier` forces `blocked = true`, even from an unblocked state.  (2) From
a blocked state, an `update` can only end with `blocked = false` when the
updated `total_samples` has reached `min_samples`, the updated
`consecutive_good` streak has reached `consecutive_good_to_unblock`, and
the sample itself is neither backlog nor outlier — so a single good sample
after a block never unblocks while the required streak is longer than one. -/
theorem block_asymmetry :
    (∀ (g : TradeLatencyGate) (inp : GateUpdateIn),
      inp.backlog = true ∨ inp.outlier = true →
      ¬(inp.raw_ms = none ∧ inp.effective_ms = none) →
      (g.update inp).state.blocked = true) ∧
    (∀ (g : TradeLatencyGate) (inp : GateUpdateIn),
      g.state.blocked = true →
      (g.update inp).state.blocked = false →
      g.config.min_samples ≤ (g.update inp).state.total_samples ∧
        g.config.consecutive_good_to_unblock ≤ (g.update inp).state.consecutive_good ∧
        inp.backlog = false ∧ inp.outlier = false) :=
  ⟨update_hard_block, update_unblock⟩

/-- C2 witness: a backlog sample blocks an unblocked default gate, and a
blocked gate that unblocks on a good sample has indeed reached both
`min_samples` and the full good streak. -/
theorem block_asymmetry_witness :
    (TradeLatencyGate.update
        { config := {}, state := { blocked := false }, effectiveSamples := [] }
        { raw_ms := some 100, effective_ms := some 100, backlog := true,
          outlier := false, skew_ms := none }).state.blocked = true ∧
    ((1 : ℕ) ≤ (TradeLatencyGate.update
        { config := { min_samples := 1, consecutive_good_to_unblock := 3 },
          state := { blocked := true, total_samples := 5, consecutive_good := 2 },
          effectiveSamples := [] }
        { raw_ms := some 10, effective_ms := none, backlog := false,
          outlier := false, skew_ms := none }).state.total_samples ∧
      (3 : ℕ) ≤ (TradeLatencyGate.update
        { config := { min_samples := 1, consecutive_good_to_unblock := 3 },
          state := { blocked := true, total_samples := 5, consecutive_good := 2 },
          effectiveSamples := [] }
        { raw_ms := some 10, effective_ms := none, backlog := false,
          outlier := false, skew_ms := none }).state.consecutive_good) :=
  ⟨block_asymmetry.1
      { config := {}, state := { blocked := false }, effectiveSamples := [] }
      { raw_ms := some 100, effective_ms := some 100, backlog := true,
        outlier := false, skew_ms := none }
      (Or.inl rfl) (by decide),
   let h := block_asymmetry.2
      { config := { min_samples := 1, consecutive_good_to_unblock := 3 },
        state := { blocked := true, total_samples := 5, consecutive_good := 2 },
        effectiveSamples := [] }
      { raw_ms := some 10, effective_ms := none, backlog := false,
        outlier := false, skew_ms := none }
      rfl (by decide)
   ⟨h.1, h.2.1⟩⟩

/-! ## Percentile-latch invariant and hysteresis -/

theorem p95LatchPhase_frame (cfg : TradeLatencyGateConfig)
    (st : TradeLatencyGateState)
    (h2 : st.warn_p95_latched = false → st.p95_warn_streak < cfg.consecutive_p95_to_warn)
    (h3 : st.warn_p95_latched = true → st.p95_clear_streak < cfg.consecutive_p95_to_clear) :
    p95LatchPhase cfg st = st := by
  unfold p95LatchPhase latchOn latchOff
  have hOn : ¬(st.warn_p95_latched = false ∧
      cfg.consecutive_p95_to_warn ≤ st.p95_warn_streak) := by
    rintro ⟨hl, hs⟩
    exact absurd hs (Nat.not_le_of_lt (h2 hl))
  rw [if_neg hOn]
  have hOff : ¬(st.warn_p95_latched = true ∧
      cfg.consecutive_p95_to_clear ≤ st.p95_clear_streak) := by
    rintro ⟨hl, hs⟩
    exact absurd hs (Nat.not_le_of_lt (h3 hl))
  rw [if_neg hOff]

theorem p95StreakPhase_inband (cfg : TradeLatencyGateConfig)
    (st : TradeLatencyGateState) (p95 : Option ℚ) (onT offT : ℚ)
    (hband : ∀ p : ℚ, p95 = some p → offT < p ∧ p < onT) :
    p95StreakPhase cfg st p95 onT offT = st := by
  rcases p95 with _ | p
  · unfold p95StreakPhase
    split <;> rfl
  · obtain ⟨hlo, hhi⟩ := hband p rfl
    unfold p95StreakPhase
    split
    · dsimp only
      rw [if_neg (not_le_of_lt hhi), if_neg (not_le_of_lt hlo)]
    · rfl

theorem p95StreakPhase_disj (cfg : TradeLatencyGateConfig)
    (st : TradeLatencyGateState) (p95 : Option ℚ) (onT offT : ℚ)
    (h1 : st.p95_warn_streak = 0 ∨ st.p95_clear_streak = 0) :
    (p95StreakPhase cfg st p95 onT offT).p95_warn_streak = 0 ∨
      (p95StreakPhase cfg st p95 onT offT).p95_clear_streak = 0 := by
  unfold p95StreakPhase
  split
  · rcases p95 with _ | p
    · exact h1
    · dsimp only
      by_cases hOn : onT ≤ p
      · rw [if_pos hOn]
        exact Or.inr rfl
      · rw [if_neg hOn]
        by_cases hOff : p ≤ offT
        · rw [if_pos hOff]
          exact Or.inl rfl
        · rw [if_neg hOff]
          exact h1
  · exact h1

theorem p95LatchPhase_inv (cfg : TradeLatencyGateConfig)
    (st : TradeLatencyGateState)
    (hw : 1 ≤ cfg.consecutive_p95_to_warn) (hc : 1 ≤ cfg.consecutive_p95_to_clear)
    (h1 : st.p95_warn_streak = 0 ∨ st.p95_clear_streak = 0) :
    p95Inv cfg (p95LatchPhase cfg st) := by
  unfold p95LatchPhase latchOn latchOff p95Inv
  split
  · rename_i hOn
    have hclear : st.p95_clear_streak = 0 := by
      rcases h1 with h | h
      · omega
      · exact h
    split
    · rename_i hOff
      simp only [hclear] at hOff
      omega
    · refine ⟨Or.inl rfl, ?_, ?_⟩
      · intro h
        simp at h
      · intro _
        simpa [hclear] using hc
  · rename_i hOn
    split
    · rename_i hOff
      have hwarn : st.p95_warn_streak = 0 := by
        rcases h1 with h | h
        · exact h
        · omega
      refine ⟨Or.inr rfl, ?_, ?_⟩
      · intro _
        simpa [hwarn] using hw
      · intro h
        simp at h
    · rename_i hOff
      refine ⟨h1, ?_, ?_⟩
      · intro hL
        by_contra hge
        exact hOn ⟨hL, Nat.le_of_not_lt hge⟩
      · intro hL
        by_contra hge
        exact hOff ⟨hL, Nat.le_of_not_lt hge⟩

theorem stepPercentile_inv (cfg : TradeLatencyGateConfig)
    (st : TradeLatencyGateState) (samples : List ℚ) (e : ℚ)
    (hw : 1 ≤ cfg.consecutive_p95_to_warn) (hc : 1 ≤ cfg.consecutive_p95_to_clear)
    (h1 : st.p95_warn_streak = 0 ∨ st.p95_clear_streak = 0) :
    p95Inv cfg (stepPercentile cfg st samples e).1 := by
  unfold stepPercentile
  dsimp only
  exact p95LatchPhase_inv cfg _ hw hc (p95StreakPhase_disj cfg _ _ _ _ h1)

theorem stepPercentile_band_frame (cfg : TradeLatencyGateConfig)
    (st : TradeLatencyGateState) (samples : List ℚ) (e : ℚ)
    (h2 : st.warn_p95_latched = false → st.p95_warn_streak < cfg.consecutive_p95_to_warn)
    (h3 : st.warn_p95_latched = true → st.p95_clear_streak < cfg.consecutive_p95_to_clear)
    (hband : ∀ p : ℚ,
      (effectiveStats (truncateWindow (samples ++ [e]) cfg.effective_window_size)).1 = some p →
      max 0 (cfg.backlog_warn_ms - cfg.warn_p95_hyst_off_ms) < p ∧
      p < cfg.backlog_warn_ms + cfg.warn_p95_hyst_on_ms) :
    (stepPercentile cfg st samples e).1.warn_p95_latched = st.warn_p95_latched ∧
    (stepPercentile cfg st samples e).1.p95_warn_streak = st.p95_warn_streak ∧
    (stepPercentile cfg st samples e).1.p95_clear_streak = st.p95_clear_streak := by
  unfold stepPercentile
  dsimp only
  rw [p95StreakPhase_inband cfg _ _ _ _ hband,
    p95LatchPhase_frame cfg (stepStats cfg st samples e) h2 h3]
  exact ⟨rfl, rfl, rfl⟩

theorem applyPercentile_inv (cfg : TradeLatencyGateConfig)
    (st : TradeLatencyGateState) (samples : List ℚ) (inp : GateUpdateIn)
    (hw : 1 ≤ cfg.consecutive_p95_to_warn) (hc : 1 ≤ cfg.consecutive_p95_to_clear)
    (hinv : p95Inv cfg st) :
    p95Inv cfg (applyPercentile cfg st samples inp).1 := by
  unfold applyPercentile
  rcases inp.effective_ms with _ | e
  · exact hinv
  · dsimp only
    by_cases ho : inp.outlier = true
    · rw [if_pos ho]
      exact hinv
    · rw [if_neg ho]
      exact stepPercentile_inv cfg st samples e hw hc hinv.1

theorem update_p95Inv (g : TradeLatencyGate) (inp : GateUpdateIn)
    (hw : 1 ≤ g.config.consecutive_p95_to_warn)
    (hc : 1 ≤ g.config.consecutive_p95_to_clear)
    (hinv : p95Inv g.config g.state) :
    p95Inv g.config (g.update inp).state := by
  by_cases hne : inp.raw_ms = none ∧ inp.effective_ms = none
  · rw [update_none_frame g inp hne]
    exact hinv
  · rw [update_state_eq g inp hne]
    unfold p95Inv
    rw [stepHardBlock_warnStreak, stepBlocked_warnStreak, stepStreaks_warnStreak,
      stepHardBlock_clearStreak, stepBlocked_clearStreak, stepStreaks_clearStreak,
      stepHardBlock_latched, stepBlocked_latched, stepStreaks_latched]
    exact applyPercentile_inv g.config (stepRecord g.state inp) g.effectiveSamples inp hw hc hinv

theorem update_band_frame (g : TradeLatencyGate) (inp : GateUpdateIn)
    (hinv : p95Inv g.config g.state)
    (hband : ∀ p : ℚ, stepP95 g inp = some p →
      max 0 (g.config.backlog_warn_ms - g.config.warn_p95_hyst_off_ms) < p ∧
      p < g.config.backlog_warn_ms + g.config.warn_p95_hyst_on_ms) :
    (g.update inp).state.warn_p95_latched = g.state.warn_p95_latched ∧
    (g.update inp).state.p95_warn_streak = g.state.p95_warn_streak ∧
    (g.update inp).state.p95_clear_streak = g.state.p95_clear_streak := by
  obtain ⟨h1, h2, h3⟩ := hinv
  by_cases hne : inp.raw_ms = none ∧ inp.effective_ms = none
  · rw [update_none_frame g inp hne]
    exact ⟨rfl, rfl, rfl⟩
  · have hap :
        (applyPercentile g.config (stepRecord g.state inp) g.effectiveSamples inp).1.warn_p95_latched
            = g.state.warn_p95_latched ∧
        (applyPercentile g.config (stepRecord g.state inp) g.effectiveSamples inp).1.p95_warn_streak
            = g.state.p95_warn_streak ∧
        (applyPercentile g.config (stepRecord g.state inp) g.effectiveSamples inp).1.p95_clear_streak
            = g.state.p95_clear_streak := by
      unfold applyPercentile
      unfold stepP95 at hband
      rcases he : inp.effective_ms with _ | e
      · exact ⟨rfl, rfl, rfl⟩
      · rw [he] at hband
        dsimp only at hband ⊢
        by_cases ho : inp.outlier = true
        · rw [if_pos ho]
          exact ⟨rfl, rfl, rfl⟩
        · rw [if_neg ho]
          rw [if_neg ho] at hband
          exact stepPercentile_band_frame g.config (stepRecord g.state inp)
            g.effectiveSamples e h2 h3 hband
    rw [update_state_eq g inp hne]
    refine ⟨?_, ?_, ?_⟩
    · rw [stepHardBlock_latched, stepBlocked_latched, stepStreaks_latched]
      exact hap.1
    · rw [stepHardBlock_warnStreak, stepBlocked_warnStreak, stepStreaks_warnStreak]
      exact hap.2.1
    · rw [stepHardBlock_clearStreak, stepBlocked_clearStreak, stepStreaks_clearStreak]
      exact hap.2.2

theorem runUpdates_config (l : List GateUpdateIn) :
    ∀ g : TradeLatencyGate, (runUpdates g l).config = g.config := by
  induction l with
  | nil => exact fun g => rfl
  | cons inp rest ih =>
    intro g
    rw [runUpdates_cons, ih (g.update inp), update_config]

theorem runUpdates_p95Inv (l : List GateUpdateIn) :
    ∀ g : TradeLatencyGate, 1 ≤ g.config.consecutive_p95_to_warn →
      1 ≤ g.config.consecutive_p95_to_clear → p95Inv g.config g.state →
      p95Inv (runUpdates g l).config (runUpdates g l).state := by
  induction l with
  | nil => exact fun g _ _ h => h
  | cons inp rest ih =>
    intro g hw hc hinv
    rw [runUpdates_cons]
    exact ih (g.update inp)
      (by rw [update_config]; exact hw)
      (by rw [update_config]; exact hc)
      (by rw [update_config]; exact update_p95Inv g inp hw hc hinv)

theorem runUpdates_band_frame (more : List GateUpdateIn) :
    ∀ g : TradeLatencyGate, 1 ≤ g.config.consecutive_p95_to_warn →
      1 ≤ g.config.consecutive_p95_to_clear → p95Inv g.config g.state →
      inBandSeq g more →
      (runUpdates g more).state.warn_p95_latched = g.state.warn_p95_latched ∧
      (runUpdates g more).state.p95_warn_streak = g.state.p95_warn_streak ∧
      (runUpdates g more).state.p95_clear_streak = g.state.p95_clear_streak := by
  induction more with
  | nil => exact fun g _ _ _ _ => ⟨rfl, rfl, rfl⟩
  | cons inp rest ih =>
    intro g hw hc hinv hband
    obtain ⟨hstep, hrest⟩ := hband
    have hone := update_band_frame g inp hinv hstep
    have hrec := ih (g.update inp)
      (by rw [update_config]; exact hw)
      (by rw [update_config]; exact hc)
      (by rw [update_config]; exact update_p95Inv g inp hw hc hinv) hrest
    rw [runUpdates_cons]
    exact ⟨hrec.1.trans hone.1, hrec.2.1.trans hone.2.1, hrec.2.2.trans hone.2.2⟩

theorem initGate_p95Inv (cfg : TradeLatencyGateConfig)
    (hw : 1 ≤ cfg.consecutive_p95_to_warn) :
    p95Inv (initGate cfg).config (initGate cfg).state :=
  ⟨Or.inl rfl, fun _ => hw, fun h => nomatch h⟩

/-- C5: percentile-warn hysteresis.  For any reachable gate (any config with
positive streak thresholds, after any prefix of updates), feeding a further
sequence of samples whose recomputed effective p95 values stay strictly
between the off threshold `max(0, backlog_warn_ms - warn_p95_hyst_off_ms)`
and the on threshold `backlog_warn_ms + warn_p95_hyst_on_ms` never changes
`warn_p95_latched`, and the warn and clear streaks hold. -/
theorem warn_p95_hysteresis (cfg : TradeLatencyGateConfig)
    (hw : 1 ≤ cfg.consecutive_p95_to_warn) (hc : 1 ≤ cfg.consecutive_p95_to_clear)
    (pre more : List GateUpdateIn)
    (hband : inBandSeq (runUpdates (initGate cfg) pre) more) :
    (runUpdates (runUpdates (initGate cfg) pre) more).state.warn_p95_latched =
      (runUpdates (initGate cfg) pre).state.warn_p95_latched ∧
    (runUpdates (runUpdates (initGate cfg) pre) more).state.p95_warn_streak =
      (runUpdates (initGate cfg) pre).state.p95_warn_streak ∧
    (runUpdates (runUpdates (initGate cfg) pre) more).state.p95_clear_streak =
      (runUpdates (initGate cfg) pre).state.p95_clear_streak := by
  have hinv :
      p95Inv (runUpdates (initGate cfg) pre).config
        (runUpdates (initGate cfg) pre).state :=
    runUpdates_p95Inv pre (initGate cfg) hw hc (initGate_p95Inv cfg hw)
  exact runUpdates_band_frame more (runUpdates (initGate cfg) pre)
    (by rw [runUpdates_config]; exact hw)
    (by rw [runUpdates_config]; exact hc)
    hinv hband

/-- C5 witness: with the default config (warn threshold 1500, hysteresis
band (1450, 1525), streak thresholds 2 and 3), a fresh gate fed one sample
whose recomputed p95 is 1500 — strictly inside the band — keeps its latch
and both streaks. -/
theorem warn_p95_hysteresis_witness :
    (runUpdates (runUpdates (initGate {}) [])
        [{ raw_ms := some 1500, effective_ms := some 1500, backlog := false,
           outlier := false, skew_ms := none }]).state.warn_p95_latched =
      (runUpdates (initGate {}) []).state.warn_p95_latched ∧
    (runUpdates (runUpdates (initGate {}) [])
        [{ raw_ms := some 1500, effective_ms := some 1500, backlog := false,
           outlier := false, skew_ms := none }]).state.p95_warn_streak =
      (runUpdates (initGate {}) []).state.p95_warn_streak ∧
    (runUpdates (runUpdates (initGate {}) [])
        [{ raw_ms := some 1500, effective_ms := some 1500, backlog := false,
           outlier := false, skew_ms := none }]).state.p95_clear_streak =
      (runUpdates (initGate {}) []).state.p95_clear_streak :=
  warn_p95_hysteresis {} (by decide) (by decide) []
    [{ raw_ms := some 1500, effective_ms := some 1500, backlog := false,
       outlier := false, skew_ms := none }]
    (by
      refine ⟨?_, trivial⟩
      intro p hp
      have hst : stepP95 (runUpdates (initGate {}) [])
          { raw_ms := some 1500, effective_ms := some 1500, backlog := false,
            outlier := false, skew_ms := none } = some 1500 := by
        norm_num [stepP95, runUpdates, initGate, clampConfig, effectiveStats,
          truncateWindow, sortQ, List.insertionSort, List.orderedInsert,
          p95Index, pyRound]
      rw [hst] at hp
      injection hp with h
      subst h
      constructor <;> norm_num [runUpdates, initGate, clampConfig])

/-! ## Threshold calibration -/

/-- C7: threshold calibration.  For every non-empty list of nonnegative raw
latency values, `suggest_thresholds` returns exactly the spec's rule:
`warn = clamp(nearest-rank p95, warn_min, warn_max)` and
`block = clamp(nearest-rank p99, block_min, block_max)`, the percentile
index being `round(q * (n - 1))` over the ascending sort. -/
theorem suggest_thresholds_spec_eq (l : List ℚ) (_hne : l ≠ [])
    (hnn : ∀ v ∈ l, 0 ≤ v) (warn_min warn_max block_min block_max : ℚ) :
    suggestThresholds l warn_min warn_max block_min block_max =
      suggestThresholdsSpec l warn_min warn_max block_min block_max := by
  have hmap : l.map (fun v => max v 0) = l := by
    conv_rhs => rw [← List.map_id l]
    exact List.map_congr_left (fun a ha => max_eq_left (hnn a ha))
  unfold suggestThresholds suggestThresholdsSpec
  rw [hmap]

/-- C7 witness: the spec's scenario —
`suggest_thresholds([10,20,30,40,50], 800, 2500, 250, 750) = (800, 250)`,
both percentiles clamped to their floors. -/
theorem suggest_thresholds_spec_eq_witness :
    suggestThresholds [10, 20, 30, 40, 50] 800 2500 250 750 = (800, 250) := by
  rw [suggest_thresholds_spec_eq [10, 20, 30, 40, 50] (by decide)
    (by norm_num) 800 2500 250 750]
  have h95 : p95Index 5 = 4 := by
    norm_num [p95Index, pyRound]
    decide
  have h99 : p99Index 5 = 4 := by
    norm_num [p99Index, pyRound]
    decide
  have hsort : sortQ [10, 20, 30, 40, 50] = [10, 20, 30, 40, 50] := by
    norm_num [sortQ, List.insertionSort, List.orderedInsert]
  rw [suggestThresholdsSpec]
  norm_num [hsort, h95, h99]

/-! ## Stream metrics claims -/

/-- C8: malformed-timestamp atomicity.  A `record_latency` call whose
server-time string is missing, empty, or rejected by the timestamp parser
returns the tracker with every field unchanged: no latency sample is
appended and no counter, last-value field, or clock-offset estimate moves. -/
theorem malformed_timestamp_noop (fromiso : String → Option ℚ)
    (m : StreamMetricsM) (server_time : Option String) (received_ts : ℚ)
    (h : server_time = none ∨
      ∃ s, server_time = some s ∧ (s = "" ∨ parseTimestampWith fromiso s = none)) :
    recordLatency fromiso m server_time received_ts = m := by
  rcases h with h | ⟨s, hs, h⟩
  · rw [h]
    rfl
  · subst hs
    unfold recordLatency
    dsimp only
    rcases h with h | h
    · rw [if_pos h]
    · by_cases hse : s = ""
      · rw [if_pos hse]
      · rw [if_neg hse, h]

/-- C8 witness: a parser that rejects its input leaves a fresh tracker
untouched. -/
theorem malformed_timestamp_noop_witness :
    recordLatency (fun _ => none) {} (some "not-a-timestamp") 5 = {} :=
  malformed_timestamp_noop (fun _ => none) {} (some "not-a-timestamp") 5
    (Or.inr ⟨"not-a-timestamp", rfl, Or.inr rfl⟩)

/-- C10: snapshot aliasing.  In every snapshot, the unqualified latency
triple equals the effective one (both are produced by
`effective_latency_stats`), and the clamped-raw statistics appear in the
`latency_clamped_*` fields, produced by `latency_stats`. -/
theorem snapshot_latency_aliasing (m : StreamMetricsM) (now : ℚ) :
    (streamSnapshot m now).latency_last_ms =
      (streamSnapshot m now).latency_effective_last_ms ∧
    (streamSnapshot m now).latency_p95_ms =
      (streamSnapshot m now).latency_effective_p95_ms ∧
    (streamSnapshot m now).latency_mean_ms =
      (streamSnapshot m now).latency_effective_mean_ms ∧
    (streamSnapshot m now).latency_effective_last_ms = (effectiveLatencyStats m).1 ∧
    (streamSnapshot m now).latency_effective_p95_ms = (effectiveLatencyStats m).2.1 ∧
    (streamSnapshot m now).latency_effective_mean_ms = (effectiveLatencyStats m).2.2 ∧
    (streamSnapshot m now).latency_clamped_last_ms = (latencyStats m).1 ∧
    (streamSnapshot m now).latency_clamped_p95_ms = (latencyStats m).2.1 ∧
    (streamSnapshot m now).latency_clamped_mean_ms = (latencyStats m).2.2 :=
  ⟨rfl, rfl, rfl, rfl, rfl, rfl, rfl, rfl, rfl⟩

/-! ## Retraining gate claims -/

theorem evaluate_blocked_field (env : RetrainEnv) (p : RetrainParams) :
    (evaluateRetrainGate env p).blocked = retrainBlocked env := by
  unfold evaluateRetrainGate
  dsimp only
  repeat' split
  all_goals rfl

theorem evaluate_bootstrap_proj (env : RetrainEnv) (p : RetrainParams)
    (h : bootstrapCondB env p = true) :
    (evaluateRetrainGate env p).allow = true ∧
    (evaluateRetrainGate env p).reason = "bootstrap_pred" := by
  unfold evaluateRetrainGate
  rw [if_pos h]
  exact ⟨rfl, rfl⟩

/-- C3 (amended): fail-open on parse failure.  Whenever the monitor file is
absent, empty, or its last line is not valid JSON (`_last_json_line` yields
nothing), `read_trade_gate_blocked` reports `false`, and the retrain
evaluation therefore carries `blocked = false` — the execution gate is
treated as unblocked on unreadable input. -/
theorem parse_failure_fail_open (env : RetrainEnv) (p : RetrainParams)
    (h : env.monitor.bind (·.lastLine) = none) :
    readTradeGateBlocked (env.monitor.bind (·.lastLine)) = false ∧
    (evaluateRetrainGate env p).blocked = false := by
  have hb : retrainBlocked env = false := by
    unfold retrainBlocked
    rw [h]
    rfl
  exact ⟨hb, by rw [evaluate_blocked_field]; exact hb⟩

/-- C3 witness: an absent monitor file is reported as `blocked = false`. -/
theorem parse_failure_fail_open_witness :
    readTradeGateBlocked
      ((none : Option MonitorFile).bind (·.lastLine)) = false ∧
    (evaluateRetrainGate
        { now := 0, scores := none, monitor := none, predMtime := none,
          candleLastTime := none }
        { window_n := 50, min_coverage := 6/10, fixed_mae_threshold := 1/10000,
          volatility_scale := 1/4, stale_monitor_s := 45, stale_pred_s := 120,
          stale_score_s := 300, stale_candle_s := 120 }).blocked = false :=
  parse_failure_fail_open
    { now := 0, scores := none, monitor := none, predMtime := none,
      candleLastTime := none }
    { window_n := 50, min_coverage := 6/10, fixed_mae_threshold := 1/10000,
      volatility_scale := 1/4, stale_monitor_s := 45, stale_pred_s := 120,
      stale_score_s := 300, stale_candle_s := 120 } rfl

/-- C3 counterexample: a monitor file that exists and is fresh but whose
last line is not valid JSON.  `read_trade_gate_blocked` reports `false`,
and the evaluation uses that `false`: the decision allows retraining via
`bootstrap_pred`, whose guard requires the gate to be unblocked — the
parse failure has silently flipped the reported blocked flag to false. -/
theorem parse_failure_fail_open_cex :
    readTradeGateBlocked
      ((some { mtime := 100, lastLine := none } : Option MonitorFile).bind
        (·.lastLine)) = false ∧
    (evaluateRetrainGate
        { now := 100, scores := none,
          monitor := some { mtime := 100, lastLine := none },
          predMtime := none, candleLastTime := some 100 }
        { window_n := 50, min_coverage := 6/10, fixed_mae_threshold := 1/10000,
          volatility_scale := 1/4, stale_monitor_s := 45, stale_pred_s := 120,
          stale_score_s := 300, stale_candle_s := 120 }).blocked = false ∧
    (evaluateRetrainGate
        { now := 100, scores := none,
          monitor := some { mtime := 100, lastLine := none },
          predMtime := none, candleLastTime := some 100 }
        { window_n := 50, min_coverage := 6/10, fixed_mae_threshold := 1/10000,
          volatility_scale := 1/4, stale_monitor_s := 45, stale_pred_s := 120,
          stale_score_s := 300, stale_candle_s := 120 }).allow = true := by
  have hboot : bootstrapCondB
      { now := 100, scores := none,
        monitor := some { mtime := 100, lastLine := none },
        predMtime := none, candleLastTime := some 100 }
      { window_n := 50, min_coverage := 6/10, fixed_mae_threshold := 1/10000,
        volatility_scale := 1/4, stale_monitor_s := 45, stale_pred_s := 120,
        stale_score_s := 300, stale_candle_s := 120 } = true := by
    norm_num [bootstrapCondB, predStaleB, monitorStaleB, scoresStaleB, isFileStale,
      retrainBlocked, readTradeGateBlocked, retrainCoverage, retrainRecords,
      readLastJsonl]
  refine ⟨rfl, ?_, ?_⟩
  · rw [evaluate_blocked_field]
    rfl
  · exact (evaluate_bootstrap_proj _ _ hboot).1

/-- C4 (amended): staleness denies retraining unless the bootstrap
exception fires.  Whenever any of the four monitored artifacts is stale
(the overall `stale` flag is set) and the `bootstrap_pred` cold-start
guard does not hold, `evaluate_retrain_gate` returns `allow = false`,
regardless of the computed MAE. -/
theorem staleness_denies_retrain (env : RetrainEnv) (p : RetrainParams)
    (hst : retrainStaleB env p = true) (hb : bootstrapCondB env p = false) :
    (evaluateRetrainGate env p).allow = false := by
  unfold evaluateRetrainGate
  rw [if_neg (by simp [hb])]
  rcases hcov : retrainCoverage env p with _ | cov
  · rfl
  · dsimp only
    rw [if_pos hst]

/-- C4 witness: with every artifact absent the pipeline is stale, the
bootstrap guard fails (the monitor is stale too), and the decision denies. -/
theorem staleness_denies_retrain_witness :
    (evaluateRetrainGate
        { now := 0, scores := none, monitor := none, predMtime := none,
          candleLastTime := none }
        { window_n := 50, min_coverage := 6/10, fixed_mae_threshold := 1/10000,
          volatility_scale := 1/4, stale_monitor_s := 45, stale_pred_s := 120,
          stale_score_s := 300, stale_candle_s := 120 }).allow = false :=
  staleness_denies_retrain
    { now := 0, scores := none, monitor := none, predMtime := none,
      candleLastTime := none }
    { window_n := 50, min_coverage := 6/10, fixed_mae_threshold := 1/10000,
      volatility_scale := 1/4, stale_monitor_s := 45, stale_pred_s := 120,
      stale_score_s := 300, stale_candle_s := 120 } rfl rfl

/-- C4 counterexample: the predictions artifact is absent (hence older than
its staleness limit by convention) while the monitor is fresh and the gate
unblocked, so the `bootstrap_pred` rule fires and the decision has
`allow = true` — a stale artifact does not always force `allow = false`. -/
theorem staleness_denies_retrain_cex :
    isFileStale (none : Option ℚ) 200 120 = true ∧
    (evaluateRetrainGate
        { now := 200, scores := none,
          monitor := some ⟨200, some ⟨some ⟨false⟩, none⟩⟩,
          predMtime := none, candleLastTime := some 200 }
        { window_n := 50, min_coverage := 6/10, fixed_mae_threshold := 1/10000,
          volatility_scale := 1/4, stale_monitor_s := 45, stale_pred_s := 120,
          stale_score_s := 300, stale_candle_s := 120 }).allow = true ∧
    (evaluateRetrainGate
        { now := 200, scores := none,
          monitor := some ⟨200, some ⟨some ⟨false⟩, none⟩⟩,
          predMtime := none, candleLastTime := some 200 }
        { window_n := 50, min_coverage := 6/10, fixed_mae_threshold := 1/10000,
          volatility_scale := 1/4, stale_monitor_s := 45, stale_pred_s := 120,
          stale_score_s := 300, stale_candle_s := 120 }).stale = true := by
  have hboot : bootstrapCondB
      { now := 200, scores := none,
        monitor := some ⟨200, some ⟨some ⟨false⟩, none⟩⟩,
        predMtime := none, candleLastTime := some 200 }
      { window_n := 50, min_coverage := 6/10, fixed_mae_threshold := 1/10000,
        volatility_scale := 1/4, stale_monitor_s := 45, stale_pred_s := 120,
        stale_score_s := 300, stale_candle_s := 120 } = true := by
    norm_num [bootstrapCondB, predStaleB, monitorStaleB, scoresStaleB, isFileStale,
      retrainBlocked, readTradeGateBlocked, retrainCoverage, retrainRecords,
      readLastJsonl]
  refine ⟨rfl, (evaluate_bootstrap_proj _ _ hboot).1, ?_⟩
  have hstale : retrainStaleB
      { now := 200, scores := none,
        monitor := some ⟨200, some ⟨some ⟨false⟩, none⟩⟩,
        predMtime := none, candleLastTime := some 200 }
      { window_n := 50, min_coverage := 6/10, fixed_mae_threshold := 1/10000,
        volatility_scale := 1/4, stale_monitor_s := 45, stale_pred_s := 120,
        stale_score_s := 300, stale_candle_s := 120 } = true := by
    norm_num [retrainStaleB, latestCandleAge, monitorStaleB, predStaleB,
      scoresStaleB, isFileStale]
  unfold evaluateRetrainGate
  rw [if_pos hboot]
  exact hstale

/-- C6 (amended): empty-scores reason.  Whenever the scoring log is empty or
absent (no scoring records are read, so coverage is null) and the
`bootstrap_pred` cold-start guard does not hold, `evaluate_retrain_gate`
returns `reason = "no_scores"` and `allow = false`. -/
theorem no_scores_reason (env : RetrainEnv) (p : RetrainParams)
    (hrec : retrainRecords env p = []) (hb : bootstrapCondB env p = false) :
    (evaluateRetrainGate env p).reason = "no_scores" ∧
    (evaluateRetrainGate env p).allow = false := by
  have hcov : retrainCoverage env p = none := by
    unfold retrainCoverage
    rw [if_pos hrec]
  unfold evaluateRetrainGate
  rw [if_neg (by simp [hb]), hcov]
  exact ⟨rfl, rfl⟩

/-- C6 witness: a fresh monitor that records the execution gate as blocked,
with no scoring log; the bootstrap guard fails and the decision is
`no_scores` / deny. -/
theorem no_scores_reason_witness :
    (evaluateRetrainGate
        { now := 0, scores := none,
          monitor := some ⟨0, some ⟨some ⟨true⟩, none⟩⟩,
          predMtime := none, candleLastTime := some 0 }
        { window_n := 50, min_coverage := 6/10, fixed_mae_threshold := 1/10000,
          volatility_scale := 1/4, stale_monitor_s := 45, stale_pred_s := 120,
          stale_score_s := 300, stale_candle_s := 120 }).reason = "no_scores" ∧
    (evaluateRetrainGate
        { now := 0, scores := none,
          monitor := some ⟨0, some ⟨some ⟨true⟩, none⟩⟩,
          predMtime := none, candleLastTime := some 0 }
        { window_n := 50, min_coverage := 6/10, fixed_mae_threshold := 1/10000,
          volatility_scale := 1/4, stale_monitor_s := 45, stale_pred_s := 120,
          stale_score_s := 300, stale_candle_s := 120 }).allow = false :=
  no_scores_reason
    { now := 0, scores := none,
      monitor := some ⟨0, some ⟨some ⟨true⟩, none⟩⟩,
      predMtime := none, candleLastTime := some 0 }
    { window_n := 50, min_coverage := 6/10, fixed_mae_threshold := 1/10000,
      volatility_scale := 1/4, stale_monitor_s := 45, stale_pred_s := 120,
      stale_score_s := 300, stale_candle_s := 120 } rfl
    (by norm_num [bootstrapCondB, retrainBlocked, readTradeGateBlocked])

/-- C6 counterexample: the scoring log is absent (no records, coverage
null), yet the decision's reason is `bootstrap_pred` with `allow = true`,
because the predictions artifact is stale, the monitor fresh, and the gate
unblocked — `no_scores` is not reached. -/
theorem no_scores_reason_cex :
    retrainRecords
      { now := 300, scores := none,
        monitor := some ⟨300, some ⟨none, none⟩⟩,
        predMtime := none, candleLastTime := some 300 }
      { window_n := 50, min_coverage := 6/10, fixed_mae_threshold := 1/10000,
        volatility_scale := 1/4, stale_monitor_s := 45, stale_pred_s := 120,
        stale_score_s := 300, stale_candle_s := 120 } = [] ∧
    (evaluateRetrainGate
        { now := 300, scores := none,
          monitor := some ⟨300, some ⟨none, none⟩⟩,
          predMtime := none, candleLastTime := some 300 }
        { window_n := 50, min_coverage := 6/10, fixed_mae_threshold := 1/10000,
          volatility_scale := 1/4, stale_monitor_s := 45, stale_pred_s := 120,
          stale_score_s := 300, stale_candle_s := 120 }).reason = "bootstrap_pred" ∧
    (evaluateRetrainGate
        { now := 300, scores := none,
          monitor := some ⟨300, some ⟨none, none⟩⟩,
          predMtime := none, candleLastTime := some 300 }
        { window_n := 50, min_coverage := 6/10, fixed_mae_threshold := 1/10000,
          volatility_scale := 1/4, stale_monitor_s := 45, stale_pred_s := 120,
          stale_score_s := 300, stale_candle_s := 120 }).allow = true := by
  have hboot : bootstrapCondB
      { now := 300, scores := none,
        monitor := some ⟨300, some ⟨none, none⟩⟩,
        predMtime := none, candleLastTime := some 300 }
      { window_n := 50, min_coverage := 6/10, fixed_mae_threshold := 1/10000,
        volatility_scale := 1/4, stale_monitor_s := 45, stale_pred_s := 120,
        stale_score_s := 300, stale_candle_s := 120 } = true := by
    norm_num [bootstrapCondB, predStaleB, monitorStaleB, scoresStaleB, isFileStale,
      retrainBlocked, readTradeGateBlocked, retrainCoverage, retrainRecords,
      readLastJsonl]
  exact ⟨rfl, (evaluate_bootstrap_proj _ _ hboot).2,
    (evaluate_bootstrap_proj _ _ hboot).1⟩
